import Mathlib

/-!
Shallow embedding of the diet-tracker app (src/tracker_app.py): the
append-and-aggregate pipeline.  Numeric cells are modelled with ℚ; a cell
whose numeric or date coercion failed (pandas errors="coerce") is `none`.
-/

namespace Tracker

/-- A cell value in a stored row (string, float, or int column). -/
inductive Value where
  | s : String → Value
  | q : ℚ → Value
  | i : ℤ → Value
deriving DecidableEq, Repr

/-- A stored row: one list of cells, in the stream schema's column order. -/
abbrev Row := List Value

/-- Column names of the `weight` stream (order of the append in the save button). -/
def weightSchema : List String :=
  ["timestamp", "date", "weight_kg", "waist_cm", "sleep_h", "condition", "alcohol"]

/-- Column names of the `meals` stream. -/
def mealsSchema : List String :=
  ["timestamp", "date", "meal_slot", "items", "notes"]

/-- Column names of the `workouts` stream. -/
def workoutsSchema : List String :=
  ["timestamp", "date", "workout_type", "duration_min", "notes"]

/-- Schema of a stream by its name. -/
def schemaOf (stream : String) : List String :=
  if stream = "weight" then weightSchema
  else if stream = "meals" then mealsSchema
  else workoutsSchema

/-- Storage Backend state: each named stream's data rows, in insertion order. -/
abbrev Storage := String → List Row

/-- `append_row sheet_name row_values`: the backend append (spec §4.1 contract of
the gspread-backed `append_row`): the row becomes the last row of the stream. -/
def append_row (st : Storage) (sheet : String) (row : Row) : Storage :=
  fun n => if n = sheet then st n ++ [row] else st n

/-- `read_df sheet_name`: full contents of a stream, in insertion order. -/
def read_df (st : Storage) (sheet : String) : List Row := st sheet

/-- Python `str.strip()`: drop whitespace from both ends. -/
def pyStrip (s : String) : String :=
  ⟨((s.data.dropWhile Char.isWhitespace).reverse.dropWhile Char.isWhitespace).reverse⟩

/-- The fields of one submitted record, per kind (the three forms of tab 1).
`d` is the caller-supplied calendar date already rendered in ISO 8601
(`d.isoformat()`); numeric widgets hand over their values directly. -/
inductive RecordFields where
  | weight (d : String) (weight_kg waist_cm sleep_h : ℚ) (condition : ℤ) (alcohol : String)
  | meal (d meal_slot items meal_notes : String)
  | workout (d wtype : String) (duration : ℤ) (wnotes : String)

/-- The validation failures of the ingestion pipeline. -/
inductive ValidationError where
  | emptyItems
deriving DecidableEq

/-- Target stream of a record kind. -/
def streamOf : RecordFields → String
  | .weight .. => "weight"
  | .meal .. => "meals"
  | .workout .. => "workouts"

/-- The caller-supplied date field of a record. -/
def dateOf : RecordFields → String
  | .weight d .. => d
  | .meal d .. => d
  | .workout d .. => d

/-- Ingestion: validation, then the single backend append call the handler makes.
`now` is the submission instant already rendered by
`datetime.now().isoformat(timespec="seconds")`.  Only the meal form validates
(`items.strip() == ""`); the weight and workout forms append unconditionally. -/
def submit (now : String) (f : RecordFields) : Except ValidationError (String × Row) :=
  match f with
  | .weight d w wa sl c a =>
      .ok ("weight", [.s now, .s d, .q w, .q wa, .q sl, .i c, .s a])
  | .meal d slot items mnotes =>
      if pyStrip items = "" then .error .emptyItems
      else .ok ("meals", [.s now, .s d, .s slot, .s (pyStrip items), .s (pyStrip mnotes)])
  | .workout d t dur wn =>
      .ok ("workouts", [.s now, .s d, .s t, .i dur, .s (pyStrip wn)])

/-- The backend append calls a submission performs (empty on validation failure:
the error is reported before any backend call). -/
def submitCalls (now : String) (f : RecordFields) : List (String × Row) :=
  match submit now f with
  | .ok c => [c]
  | .error _ => []

/-- A weight-stream row after type coercion (`pd.to_datetime` / `pd.to_numeric`
with `errors="coerce"`): `none` marks a value whose coercion failed.  Parsed
dates are modelled as day ordinals. -/
structure WeightRow where
  date : Option ℤ
  weight_kg : Option ℚ
  waist_cm : Option ℚ
deriving DecidableEq, Repr

/-- Date order used by `sort_values("date")` with `na_position="last"`:
unparseable dates sort after every parsed date. -/
def dateLE : Option ℤ → Option ℤ → Bool
  | _, none => true
  | none, some _ => false
  | some x, some y => decide (x ≤ y)

/-- Insert a row into a date-sorted list, before the first row it is `dateLE`. -/
def insertByDate (r : WeightRow) : List WeightRow → List WeightRow
  | [] => [r]
  | x :: xs => if dateLE r.date x.date then r :: x :: xs else x :: insertByDate r xs

/-- `wdf.sort_values("date")`: ascending by parsed date, missing dates last. -/
def sort_values : List WeightRow → List WeightRow
  | [] => []
  | r :: rs => insertByDate r (sort_values rs)

/-- Arithmetic mean of a list of rationals. -/
def mean (l : List ℚ) : ℚ := l.sum / l.length

/-- The trailing window `[max(0, i-6), i]` of a series, keeping only the
non-missing values (pandas excludes NaN from the window's observations). -/
def w7window (xs : List (Option ℚ)) (i : ℕ) : List ℚ :=
  ((xs.take (i + 1)).drop (i - 6)).filterMap id

/-- `series.rolling(window=7, min_periods=1).mean()`: at each index the mean of
the non-missing values of the trailing 7-point window, `none` if all missing. -/
def rollingMean7 (xs : List (Option ℚ)) : List (Option ℚ) :=
  (List.range xs.length).map fun i =>
    let w := w7window xs i
    if w.isEmpty then none else some (mean w)

/-- `df.tail(n)`: the last `n` rows. -/
def tail (n : ℕ) (xs : List α) : List α := xs.drop (xs.length - n)

/-- The structured result the dashboard hands to presentation. -/
structure DashboardModel where
  /-- `wdf.empty`: the "no data" signal of the else-branch. -/
  noData : Bool
  /-- The date-sorted weight rows with the aligned `w7` column (the charted frame). -/
  series : List (WeightRow × Option ℚ)
  latestWeight : Option ℚ
  latestW7 : Option ℚ
  latestWaist : Option ℚ
  recentMeals : List Row
  recentWorkouts : List Row
deriving DecidableEq

/-- The tab-2 aggregation over the three loaded streams: coercion and sorting of
the weight frame, the `w7` rolling mean, the latest metrics
(`wdf.dropna(subset=["weight_kg"]).tail(1)` and `wdf["waist_cm"].dropna()`),
and the tail-10 meal and workout tables. -/
def summarize (wdf : List WeightRow) (mdf odf : List Row) : DashboardModel :=
  if wdf.isEmpty then
    { noData := true, series := [], latestWeight := none, latestW7 := none,
      latestWaist := none, recentMeals := tail 10 mdf, recentWorkouts := tail 10 odf }
  else
    let s := sort_values wdf
    let w7 := rollingMean7 (s.map (fun r => r.weight_kg))
    let series := s.zip w7
    let latest := tail 1 (series.filter (fun p => p.1.weight_kg.isSome))
    { noData := false
      series := series
      latestWeight := latest.head?.bind (fun p => p.1.weight_kg)
      latestW7 := latest.head?.bind (fun p => p.2)
      latestWaist := (s.filterMap (fun r => r.waist_cm)).getLast?
      recentMeals := tail 10 mdf
      recentWorkouts := tail 10 odf }

/-- Outcome of rendering tab 2: `st.stop()` after a failed read, or the model. -/
inductive DashResult where
  | stopped (msg : String)
  | rendered (model : DashboardModel)
deriving DecidableEq

/-- Tab 2: the three reads run in one `try` block; the first failure is surfaced
(`st.error`) and `st.stop()` aborts the whole tab. -/
def dashboard (rw : Except String (List WeightRow)) (rm ro : Except String (List Row)) :
    DashResult :=
  match rw with
  | .error e => .stopped e
  | .ok wdf =>
    match rm with
    | .error e => .stopped e
    | .ok mdf =>
      match ro with
      | .error e => .stopped e
      | .ok odf => .rendered (summarize wdf mdf odf)

/-- The meal table of a dashboard render, if one was rendered at all. -/
def renderedMeals : DashResult → Option (List Row)
  | .stopped _ => none
  | .rendered m => some m.recentMeals

/-- The window of the spec's words: indices `j` with `max(0, i-6) ≤ j ≤ i`
(`i - 6` is truncated ℕ subtraction, so it is `max(0, i-6)`), restricted to
the rows whose value is non-missing. -/
def specWindow (xs : List (Option ℚ)) (i : ℕ) : List ℚ :=
  (((List.range (i + 1)).filter (fun j => i - 6 ≤ j)).map (fun j => xs.getD j none)).filterMap id

/-- A record is valid when it passes the ingestion validation: only the meal
form validates anything (non-empty trimmed `items`). -/
def validFields : RecordFields → Prop
  | .meal _ _ items _ => pyStrip items ≠ ""
  | _ => True

/-- Run a submission against the backend: perform each append call it makes. -/
def runSubmit (st : Storage) (now : String) (f : RecordFields) : Storage :=
  (submitCalls now f).foldl (fun s c => append_row s c.1 c.2) st

/-- A backend with three empty streams. -/
def emptyStorage : Storage := fun _ => []

/-- Two-row weight frame: day 0 fully measured, day 1 with failed coercions. -/
def wdfC1 : List WeightRow := [⟨some 0, some 70, some 80⟩, ⟨some 1, none, none⟩]

/-- The eight-day series of P3: consecutive dates, no missing values. -/
def series8 : List WeightRow :=
  [⟨some 0, some 70, none⟩, ⟨some 1, some 71, none⟩, ⟨some 2, some 69, none⟩,
   ⟨some 3, some 70, none⟩, ⟨some 4, some 72, none⟩, ⟨some 5, some 71, none⟩,
   ⟨some 6, some 70, none⟩, ⟨some 7, some 73, none⟩]

/-- The P7 scenario: day 1 = 2024-01-01 (70 kg, waist 80), day 3 = 2024-01-03
(69.5 kg, waist missing); dates as day ordinals. -/
def wdfC3 : List WeightRow := [⟨some 1, some 70, some 80⟩, ⟨some 3, some (139/2), none⟩]

/-- A frame whose last waist measurement is the sentinel 0 (earlier waist 80). -/
def wdfC9 : List WeightRow := [⟨some 0, none, some 80⟩, ⟨some 2, some 70, some 0⟩]

/-- One stored meal row. -/
def mealRowC7 : Row := [.s "2024-01-01T08:00:00", .s "2024-01-01", .s "m", .s "eggs", .s ""]

end Tracker

namespace Tracker

/-! Auxiliary lemmas about the embedded operations. -/

theorem length_insertByDate (r : WeightRow) (l : List WeightRow) :
    (insertByDate r l).length = l.length + 1 := by
  induction l with
  | nil => rfl
  | cons x xs ih =>
    unfold insertByDate
    split
    · simp
    · simp [ih]

theorem insertByDate_perm (r : WeightRow) (l : List WeightRow) :
    List.Perm (insertByDate r l) (r :: l) := by
  induction l with
  | nil => exact List.Perm.refl _
  | cons x xs ih =>
    unfold insertByDate
    split
    · exact List.Perm.refl _
    · exact (List.Perm.cons x ih).trans (List.Perm.swap r x xs)

theorem sort_values_perm (l : List WeightRow) : List.Perm (sort_values l) l := by
  induction l with
  | nil => exact List.Perm.refl _
  | cons r rs ih => exact (insertByDate_perm r (sort_values rs)).trans (ih.cons r)

theorem length_sort_values (l : List WeightRow) : (sort_values l).length = l.length :=
  (sort_values_perm l).length_eq

theorem length_rollingMean7 (xs : List (Option ℚ)) : (rollingMean7 xs).length = xs.length := by
  simp [rollingMean7]

theorem tail_one_head? (l : List α) : (tail 1 l).head? = l.getLast? := by
  induction l with
  | nil => rfl
  | cons a l ih =>
    cases l with
    | nil => rfl
    | cons b t =>
      have h1 : (a :: b :: t).length - 1 = t.length + 1 := by simp
      have h2 : (b :: t).length - 1 = t.length := by simp
      rw [tail, h1, List.drop_succ_cons, List.getLast?_cons_cons, ← h2, ← tail, ih]

theorem filter_range_ge (n k : ℕ) (hk : k ≤ n) :
    (List.range n).filter (fun j => k ≤ j) = List.range' k (n - k) := by
  induction n with
  | zero =>
    have : k = 0 := Nat.le_zero.mp hk
    subst this
    rfl
  | succ n ih =>
    rw [List.range_succ, List.filter_append]
    by_cases h : k ≤ n
    · rw [ih h]
      have hsingle : List.filter (fun j => decide (k ≤ j)) [n] = [n] := by
        simp [List.filter_cons, h]
      rw [hsingle]
      have h2 : n + 1 - k = (n - k) + 1 := by omega
      rw [h2, List.range'_concat]
      congr 2
      omega
    · have hkn : k = n + 1 := by omega
      subst hkn
      have h1 : (List.range n).filter (fun j => decide (n + 1 ≤ j)) = [] := by
        rw [List.filter_eq_nil_iff]
        intro a ha
        have := List.mem_range.mp ha
        simp
        omega
      have h2 : List.filter (fun j => decide (n + 1 ≤ j)) [n] = [] := by
        simp [List.filter_cons]
      rw [h1, h2]
      simp

theorem map_getD_range' (xs : List (Option ℚ)) (k m : ℕ) (h : k + m ≤ xs.length) :
    (List.range' k m).map (fun j => xs.getD j none) = (xs.take (k + m)).drop k := by
  apply List.ext_getElem
  · simp
    omega
  · intro i h1 h2
    have hr : i < (List.range' k m).length := by simpa using h1
    have hki : k + i < xs.length := by
      simp at h1
      omega
    rw [List.getElem_map, List.getElem_range', List.getElem_drop, List.getElem_take]
    simp [List.getElem?_eq_getElem hki]

theorem w7window_eq_specWindow (xs : List (Option ℚ)) (i : ℕ) (h : i < xs.length) :
    w7window xs i = specWindow xs i := by
  unfold w7window specWindow
  rw [filter_range_ge (i + 1) (i - 6) (by omega),
      map_getD_range' xs (i - 6) (i + 1 - (i - 6)) (by omega)]
  have he : (i - 6) + (i + 1 - (i - 6)) = i + 1 := by omega
  rw [he]

theorem rollingMean7_getElem? (xs : List (Option ℚ)) (i : ℕ) (hx : i < xs.length) :
    (rollingMean7 xs)[i]? =
      some (if (specWindow xs i).isEmpty then none else some (mean (specWindow xs i))) := by
  have e : rollingMean7 xs = (List.range xs.length).map
      (fun j => if (w7window xs j).isEmpty then none else some (mean (w7window xs j))) := rfl
  rw [e, List.getElem?_map, List.getElem?_range hx]
  simp [w7window_eq_specWindow xs i hx]

theorem summarize_series (wdf : List WeightRow) (mdf odf : List Row) (h : wdf ≠ []) :
    (summarize wdf mdf odf).series
      = (sort_values wdf).zip (rollingMean7 ((sort_values wdf).map (fun r => r.weight_kg))) := by
  cases wdf with
  | nil => exact absurd rfl h
  | cons a t => rfl

theorem summarize_latestWeight (wdf : List WeightRow) (mdf odf : List Row) (h : wdf ≠ []) :
    (summarize wdf mdf odf).latestWeight
      = (tail 1 (((sort_values wdf).zip
            (rollingMean7 ((sort_values wdf).map (fun r => r.weight_kg)))).filter
          (fun p => p.1.weight_kg.isSome))).head?.bind (fun p => p.1.weight_kg) := by
  cases wdf with
  | nil => exact absurd rfl h
  | cons a t => rfl

theorem summarize_latestW7 (wdf : List WeightRow) (mdf odf : List Row) (h : wdf ≠ []) :
    (summarize wdf mdf odf).latestW7
      = (tail 1 (((sort_values wdf).zip
            (rollingMean7 ((sort_values wdf).map (fun r => r.weight_kg)))).filter
          (fun p => p.1.weight_kg.isSome))).head?.bind (fun p => p.2) := by
  cases wdf with
  | nil => exact absurd rfl h
  | cons a t => rfl

theorem summarize_latestWaist (wdf : List WeightRow) (mdf odf : List Row) (h : wdf ≠ []) :
    (summarize wdf mdf odf).latestWaist
      = ((sort_values wdf).filterMap (fun r => r.waist_cm)).getLast? := by
  cases wdf with
  | nil => exact absurd rfl h
  | cons a t => rfl

theorem head?_filterMap_bind (f : α → Option β) (l : List α) :
    (l.filterMap f).head? = ((l.filter (fun x => (f x).isSome)).head?).bind f := by
  induction l with
  | nil => rfl
  | cons a t ih =>
    cases hfa : f a with
    | none =>
      have hs : (f a).isSome = false := by rw [hfa]; rfl
      simp [List.filterMap_cons, List.filter_cons, hfa, hs, ih]
    | some b =>
      have hs : (f a).isSome = true := by rw [hfa]; rfl
      simp [List.filterMap_cons, List.filter_cons, hfa, hs]

theorem getLast?_filterMap_bind (f : α → Option β) (l : List α) :
    (l.filterMap f).getLast? = ((l.filter (fun x => (f x).isSome)).getLast?).bind f := by
  rw [List.getLast?_eq_head?_reverse, ← List.filterMap_reverse, head?_filterMap_bind,
      List.filter_reverse, List.head?_reverse]

theorem getLast?_filter_last_index (p : α → Bool) (l : List α) (j : ℕ) (hj : j < l.length)
    (hpj : p (l.get ⟨j, hj⟩) = true)
    (hafter : ∀ k (hk : k < l.length), j < k → p (l.get ⟨k, hk⟩) = false) :
    (l.filter p).getLast? = some (l.get ⟨j, hj⟩) := by
  have hdec : l.take j ++ l.get ⟨j, hj⟩ :: l.drop (j + 1) = l := by
    rw [List.get_eq_getElem, ← List.drop_eq_getElem_cons hj, List.take_append_drop]
  have hnil : (l.drop (j + 1)).filter p = [] := by
    rw [List.filter_eq_nil_iff]
    intro a ha
    rw [List.mem_iff_getElem] at ha
    obtain ⟨n, hn, ha⟩ := ha
    subst ha
    have hlen : j + 1 + n < l.length := by
      simp at hn
      omega
    rw [List.getElem_drop]
    have := hafter (j + 1 + n) hlen (by omega)
    rw [List.get_eq_getElem] at this
    simp [this]
  calc (l.filter p).getLast?
      = ((l.take j ++ l.get ⟨j, hj⟩ :: l.drop (j + 1)).filter p).getLast? := by rw [hdec]
    _ = ((l.take j).filter p ++ l.get ⟨j, hj⟩ :: (l.drop (j + 1)).filter p).getLast? := by
          rw [List.filter_append, List.filter_cons_of_pos hpj]
    _ = ((l.take j).filter p ++ [l.get ⟨j, hj⟩]).getLast? := by rw [hnil]
    _ = some (l.get ⟨j, hj⟩) := List.getLast?_concat _

theorem summarize_latestWeight_series (wdf : List WeightRow) (mdf odf : List Row)
    (h : wdf ≠ []) :
    (summarize wdf mdf odf).latestWeight
      = ((summarize wdf mdf odf).series.filter (fun p => p.1.weight_kg.isSome)).getLast?.bind
          (fun p => p.1.weight_kg) := by
  cases wdf with
  | nil => exact absurd rfl h
  | cons a t =>
    have e : (summarize (a :: t) mdf odf).latestWeight
        = (tail 1 ((summarize (a :: t) mdf odf).series.filter
            (fun p => p.1.weight_kg.isSome))).head?.bind (fun p => p.1.weight_kg) := rfl
    rw [e, tail_one_head?]

theorem summarize_latestW7_series (wdf : List WeightRow) (mdf odf : List Row)
    (h : wdf ≠ []) :
    (summarize wdf mdf odf).latestW7
      = ((summarize wdf mdf odf).series.filter (fun p => p.1.weight_kg.isSome)).getLast?.bind
          (fun p => p.2) := by
  cases wdf with
  | nil => exact absurd rfl h
  | cons a t =>
    have e : (summarize (a :: t) mdf odf).latestW7
        = (tail 1 ((summarize (a :: t) mdf odf).series.filter
            (fun p => p.1.weight_kg.isSome))).head?.bind (fun p => p.2) := rfl
    rw [e, tail_one_head?]

theorem zip_filter_last_eq (s : List WeightRow) (w7 : List (Option ℚ))
    (hlen : s.length ≤ w7.length) :
    ((s.zip w7).filter (fun p => p.1.weight_kg.isSome)).getLast?.bind (fun p => p.1.weight_kg)
      = (s.filter (fun r => r.weight_kg.isSome)).getLast?.bind (fun r => r.weight_kg) := by
  have e1 : ((s.zip w7).filter (fun p => p.1.weight_kg.isSome)).getLast?.bind
      (fun p => p.1.weight_kg) = ((s.zip w7).filterMap (fun p => p.1.weight_kg)).getLast? :=
    (getLast?_filterMap_bind _ _).symm
  have e2 : (s.zip w7).filterMap (fun p => p.1.weight_kg)
      = s.filterMap (fun r => r.weight_kg) := by
    conv_rhs => rw [← List.map_fst_zip s w7 hlen]
    rw [List.filterMap_map]
    rfl
  rw [e1, e2, getLast?_filterMap_bind]

theorem head?_dropWhile_false (p : α → Bool) (l : List α) (c : α)
    (h : (l.dropWhile p).head? = some c) : p c = false := by
  have hm := List.head?_dropWhile_not p l
  rw [h] at hm
  exact hm

theorem getLast?_dropWhile_of_ne_nil (p : α → Bool) (l : List α)
    (h : l.dropWhile p ≠ []) : (l.dropWhile p).getLast? = l.getLast? := by
  induction l with
  | nil => exact absurd rfl h
  | cons a t ih =>
    by_cases hp : p a = true
    · rw [List.dropWhile_cons, if_pos hp]
      have h2 : t.dropWhile p ≠ [] := by rwa [List.dropWhile_cons, if_pos hp] at h
      rw [ih h2]
      cases t with
      | nil => exact absurd rfl h2
      | cons b u => rw [List.getLast?_cons_cons]
    · rw [List.dropWhile_cons, if_neg hp]

theorem pyStrip_head_not_ws (s : String) (c : Char)
    (h : (pyStrip s).data.head? = some c) : c.isWhitespace = false := by
  have hd : (pyStrip s).data
      = (List.dropWhile Char.isWhitespace
          ((List.dropWhile Char.isWhitespace s.data).reverse)).reverse := rfl
  rw [hd, List.head?_reverse] at h
  have hne : List.dropWhile Char.isWhitespace
      ((List.dropWhile Char.isWhitespace s.data).reverse) ≠ [] := by
    intro h0
    rw [h0] at h
    exact Option.noConfusion h
  rw [getLast?_dropWhile_of_ne_nil _ _ hne, List.getLast?_reverse] at h
  exact head?_dropWhile_false _ _ _ h

theorem pyStrip_getLast_not_ws (s : String) (c : Char)
    (h : (pyStrip s).data.getLast? = some c) : c.isWhitespace = false := by
  have hd : (pyStrip s).data
      = (List.dropWhile Char.isWhitespace
          ((List.dropWhile Char.isWhitespace s.data).reverse)).reverse := rfl
  rw [hd, List.getLast?_reverse] at h
  exact head?_dropWhile_false _ _ _ h

/-! The claim theorems. -/

/-- C1: in `summarize` the date-ordered weight series keeps every row
(including rows with missing `weight_kg`), and the rolling-mean column at every
row `i` is the arithmetic mean of `weight_kg` over the positional window
`[max(0, i-6), i]` restricted to the non-missing values in that window —
defined whenever at least one window value is non-missing, missing when all
are missing. -/
theorem rolling_mean_window_spec (wdf : List WeightRow) (mdf odf : List Row) (h : wdf ≠ []) :
    (summarize wdf mdf odf).series.map Prod.fst = sort_values wdf
    ∧ List.Perm (sort_values wdf) wdf
    ∧ ∀ i, i < wdf.length →
        ((summarize wdf mdf odf).series.map Prod.snd)[i]? =
          some (if (specWindow ((sort_values wdf).map (fun r => r.weight_kg)) i).isEmpty
                then none
                else some (mean (specWindow ((sort_values wdf).map (fun r => r.weight_kg)) i))) := by
  have hlen : ((sort_values wdf).map (fun r => r.weight_kg)).length = wdf.length := by
    simp [length_sort_values]
  refine ⟨?_, sort_values_perm wdf, ?_⟩
  · rw [summarize_series wdf mdf odf h]
    exact List.map_fst_zip _ _ (by simp [length_rollingMean7])
  · intro i hi
    rw [summarize_series wdf mdf odf h,
        List.map_snd_zip _ _ (by simp [length_rollingMean7]),
        rollingMean7_getElem? _ i (by rw [hlen]; exact hi)]

/-- Witness for C1: day 1's weight failed coercion, so the window at row 1
holds only day 0's value and the rolling mean is 70; the missing row is still
row 1 of the charted series. -/
theorem rolling_mean_window_spec_witness :
    ((summarize wdfC1 [] []).series.map Prod.snd)[1]? = some (some 70)
    ∧ (summarize wdfC1 [] []).series.map Prod.fst = sort_values wdfC1 := by
  have t := rolling_mean_window_spec wdfC1 [] [] (by decide)
  refine ⟨?_, t.1⟩
  rw [t.2.2 1 (by decide)]
  have hr : List.range 2 = [0, 1] := rfl
  have hs : sort_values wdfC1 = wdfC1 := rfl
  rw [hs]
  simp [wdfC1, specWindow, mean, hr]

/-- Evaluation of the rolling-mean column on the P3 series. -/
theorem series8_w7_eval :
    (summarize series8 [] []).series.map Prod.snd
      = [some 70, some (141/2), some 70, some 70, some (352/5), some (423/6),
         some (493/7), some (496/7)] := by
  have hs : sort_values series8 = series8 := rfl
  rw [summarize_series series8 [] [] (by decide), hs,
      List.map_snd_zip _ _ (by simp [length_rollingMean7])]
  have h8 : List.range 8 = [0, 1, 2, 3, 4, 5, 6, 7] := rfl
  simp [series8, rollingMean7, w7window, mean, h8]
  norm_num

/-- C2 counterexample: on the P3 series the aggregation's rolling mean at index
7 is 496/7 (≈ 70.857), which is not 70.75 = 283/4, the value the claim states. -/
theorem rolling_mean_p3_counterexample :
    ((summarize series8 [] []).series.map Prod.snd)[7]? = some (some (496/7))
    ∧ (496 / 7 : ℚ) ≠ 283 / 4 := by
  refine ⟨?_, by norm_num⟩
  rw [series8_w7_eval]
  rfl

/-- C2 amended: at index 0 the rolling mean is 70.0, and at index 7 it is the
mean of the window of the last 7 values (indices 1..7), 496/7 ≈ 70.857 — index
0 falls outside the 7-point window, so the mean of all 8 values never occurs. -/
theorem rolling_mean_p3_amended :
    ((summarize series8 [] []).series.map Prod.snd)[0]? = some (some 70)
    ∧ ((summarize series8 [] []).series.map Prod.snd)[7]?
        = some (some (mean [71, 69, 70, 72, 71, 70, 73])) := by
  rw [series8_w7_eval]
  refine ⟨rfl, ?_⟩
  have : mean [71, 69, 70, 72, 71, 70, 73] = 496 / 7 := by
    simp [mean]
    norm_num
  rw [this]
  rfl

/-- C3: latest weight is the last date-sorted row with non-missing `weight_kg`
(absent when none exists), the latest rolling average is the `w7` value aligned
to that same row, and latest waist is the last date-sorted row with non-missing
`waist_cm`, independent of weight's presence in that row. -/
theorem latest_metrics (wdf : List WeightRow) (mdf odf : List Row) (h : wdf ≠ []) :
    ((summarize wdf mdf odf).latestWeight
        = ((sort_values wdf).filter (fun r => r.weight_kg.isSome)).getLast?.bind
            (fun r => r.weight_kg))
    ∧ ((summarize wdf mdf odf).latestWaist
        = ((sort_values wdf).filter (fun r => r.waist_cm.isSome)).getLast?.bind
            (fun r => r.waist_cm))
    ∧ ∀ j (hj : j < (summarize wdf mdf odf).series.length),
        ((summarize wdf mdf odf).series.get ⟨j, hj⟩).1.weight_kg.isSome = true →
        (∀ k (hk : k < (summarize wdf mdf odf).series.length), j < k →
            ((summarize wdf mdf odf).series.get ⟨k, hk⟩).1.weight_kg = none) →
        (summarize wdf mdf odf).latestWeight
            = ((summarize wdf mdf odf).series.get ⟨j, hj⟩).1.weight_kg
        ∧ (summarize wdf mdf odf).latestW7
            = ((summarize wdf mdf odf).series.get ⟨j, hj⟩).2 := by
  refine ⟨?_, ?_, ?_⟩
  · rw [summarize_latestWeight_series wdf mdf odf h, summarize_series wdf mdf odf h]
    exact zip_filter_last_eq _ _ (by simp [length_rollingMean7])
  · rw [summarize_latestWaist wdf mdf odf h, getLast?_filterMap_bind]
  · intro j hj hsome hafter
    have hlast : ((summarize wdf mdf odf).series.filter
        (fun p => p.1.weight_kg.isSome)).getLast?
        = some ((summarize wdf mdf odf).series.get ⟨j, hj⟩) :=
      getLast?_filter_last_index _ _ j hj hsome
        (fun k hk hlt => by rw [hafter k hk hlt]; rfl)
    constructor
    · rw [summarize_latestWeight_series wdf mdf odf h, hlast]
      rfl
    · rw [summarize_latestW7_series wdf mdf odf h, hlast]
      rfl

/-- Witness for C3: the P7 scenario — day 1 has 70 kg and waist 80, day 3 has
69.5 kg and missing waist; latest weight is 69.5 = 139/2 and latest waist 80. -/
theorem latest_metrics_witness :
    (summarize wdfC3 [] []).latestWeight = some (139/2)
    ∧ (summarize wdfC3 [] []).latestWaist = some 80 := by
  have t := latest_metrics wdfC3 [] [] (by decide)
  have hs : sort_values wdfC3 = wdfC3 := rfl
  refine ⟨?_, ?_⟩
  · rw [t.1, hs]
    rfl
  · rw [t.2.1, hs]
    rfl

/-- C4: a meal submission whose items are whitespace-only after trimming yields
a ValidationError and performs zero backend calls; one with non-empty trimmed
items raises no validation error and makes the append call; no other record
kind is validated (non-meal submissions always succeed). -/
theorem validation_gate (now d slot items mnotes : String) :
    (pyStrip items = "" →
      submit now (.meal d slot items mnotes) = .error .emptyItems
      ∧ submitCalls now (.meal d slot items mnotes) = []
      ∧ ∀ st : Storage, runSubmit st now (.meal d slot items mnotes) = st)
    ∧ (pyStrip items ≠ "" →
      submit now (.meal d slot items mnotes)
        = .ok ("meals", [.s now, .s d, .s slot, .s (pyStrip items), .s (pyStrip mnotes)])
      ∧ submitCalls now (.meal d slot items mnotes)
        = [("meals", [.s now, .s d, .s slot, .s (pyStrip items), .s (pyStrip mnotes)])])
    ∧ (∀ f : RecordFields, streamOf f ≠ "meals" → ∃ c, submit now f = .ok c) := by
  refine ⟨?_, ?_, ?_⟩
  · intro he
    have h1 : submit now (.meal d slot items mnotes) = .error .emptyItems := by
      simp [submit, he]
    exact ⟨h1, by simp [submitCalls, h1], fun st => by simp [runSubmit, submitCalls, h1]⟩
  · intro hne
    have h1 : submit now (.meal d slot items mnotes)
        = .ok ("meals", [.s now, .s d, .s slot, .s (pyStrip items), .s (pyStrip mnotes)]) := by
      simp [submit, hne]
    exact ⟨h1, by simp [submitCalls, h1]⟩
  · intro f hf
    cases f with
    | weight d2 w wa sl c a => exact ⟨_, rfl⟩
    | meal d2 s2 i2 n2 => exact absurd rfl hf
    | workout d2 t2 dur n2 => exact ⟨_, rfl⟩

/-- Witness for C4 (P6): items `"   "` yields the error, an empty call list,
and an unchanged backend. -/
theorem validation_gate_witness :
    submit "t0" (.meal "2024-01-01" "slot" "   " "") = .error .emptyItems
    ∧ submitCalls "t0" (.meal "2024-01-01" "slot" "   " "") = []
    ∧ runSubmit emptyStorage "t0" (.meal "2024-01-01" "slot" "   " "") = emptyStorage := by
  have t := (validation_gate "t0" "2024-01-01" "slot" "   " "").1 (by decide)
  exact ⟨t.1, t.2.1, t.2.2 emptyStorage⟩

/-- C5: an empty weight stream renders the no-data signal with no derived
weight values and no error, while the meal and workout recent-10 tables are
still populated from their own streams. -/
theorem empty_stream_dashboard (mdf odf : List Row) :
    dashboard (.ok []) (.ok mdf) (.ok odf)
      = .rendered { noData := true, series := [], latestWeight := none, latestW7 := none,
                    latestWaist := none, recentMeals := tail 10 mdf,
                    recentWorkouts := tail 10 odf } := rfl

/-- C7 counterexample: when only the weight read fails, the whole dashboard is
stopped; the meal recent table is not rendered even though its read succeeded. -/
theorem read_error_stops_all_counterexample :
    dashboard (.error "read failed") (.ok [mealRowC7]) (.ok []) = .stopped "read failed"
    ∧ renderedMeals (dashboard (.error "read failed") (.ok [mealRowC7]) (.ok [])) = none :=
  ⟨rfl, rfl⟩

/-- C7 amended: a failed read of any of the three streams surfaces its message
and aborts the entire dashboard — no section, not even one depending only on a
stream whose read succeeded, is rendered. -/
theorem read_error_stops_all (e : String) (rm ro : Except String (List Row))
    (w : List WeightRow) (m : List Row) :
    dashboard (.error e) rm ro = .stopped e
    ∧ dashboard (.ok w) (.error e) ro = .stopped e
    ∧ dashboard (.ok w) (.ok m) (.error e) = .stopped e :=
  ⟨rfl, rfl, rfl⟩

/-- C8: a valid submission constructs its row in the exact column order of the
stream's schema with the formatted submission instant first and the
caller-supplied date second, and after the backend append a read of the stream
returns the old rows with the new row last. -/
theorem append_visibility (st : Storage) (now : String) (f : RecordFields)
    (h : validFields f) :
    ∃ row, submit now f = .ok (streamOf f, row)
      ∧ row.length = (schemaOf (streamOf f)).length
      ∧ row.head? = some (.s now)
      ∧ row[1]? = some (.s (dateOf f))
      ∧ read_df (append_row st (streamOf f) row) (streamOf f)
          = read_df st (streamOf f) ++ [row]
      ∧ (read_df (append_row st (streamOf f) row) (streamOf f)).getLast? = some row := by
  have hread : ∀ (n : String) (row : Row),
      read_df (append_row st n row) n = read_df st n ++ [row] := by
    intro n row
    simp [read_df, append_row]
  cases f with
  | weight d w wa sl c a =>
    refine ⟨_, rfl, rfl, rfl, rfl, hread _ _, ?_⟩
    rw [hread]
    exact List.getLast?_concat _
  | meal d slot items mnotes =>
    have hne : pyStrip items ≠ "" := h
    refine ⟨[.s now, .s d, .s slot, .s (pyStrip items), .s (pyStrip mnotes)],
      ?_, rfl, rfl, rfl, hread _ _, ?_⟩
    · simp [submit, streamOf, hne]
    · rw [hread]
      exact List.getLast?_concat _
  | workout d t dur wn =>
    refine ⟨_, rfl, rfl, rfl, rfl, hread _ _, ?_⟩
    rw [hread]
    exact List.getLast?_concat _

/-- Witness for C8: a weight record appended to an empty backend. -/
theorem append_visibility_witness :
    validFields (RecordFields.weight "2024-01-02" 70 80 7 3 "none")
    ∧ ∃ row, submit "2024-01-02T08:00:00" (.weight "2024-01-02" 70 80 7 3 "none")
        = .ok ("weight", row)
      ∧ row.length = (schemaOf "weight").length
      ∧ row.head? = some (.s "2024-01-02T08:00:00")
      ∧ row[1]? = some (.s "2024-01-02")
      ∧ read_df (append_row emptyStorage "weight" row) "weight"
          = read_df emptyStorage "weight" ++ [row]
      ∧ (read_df (append_row emptyStorage "weight" row) "weight").getLast? = some row :=
  ⟨trivial,
   append_visibility emptyStorage "2024-01-02T08:00:00"
     (.weight "2024-01-02" 70 80 7 3 "none") trivial⟩

/-- C9: the aggregation treats a numeric waist of 0 (the form's sentinel for
no measurement) as present: when the last date-sorted row with a non-missing
`waist_cm` holds 0, the latest-waist metric is 0. -/
theorem waist_zero_present (wdf : List WeightRow) (mdf odf : List Row) (h : wdf ≠ [])
    (j : ℕ) (hj : j < (sort_values wdf).length)
    (h0 : ((sort_values wdf).get ⟨j, hj⟩).waist_cm = some 0)
    (hafter : ∀ k (hk : k < (sort_values wdf).length), j < k →
        ((sort_values wdf).get ⟨k, hk⟩).waist_cm = none) :
    (summarize wdf mdf odf).latestWaist = some 0 := by
  have hlast : ((sort_values wdf).filter (fun r => r.waist_cm.isSome)).getLast?
      = some ((sort_values wdf).get ⟨j, hj⟩) :=
    getLast?_filter_last_index _ _ j hj (by rw [h0]; rfl)
      (fun k hk hlt => by rw [hafter k hk hlt]; rfl)
  rw [summarize_latestWaist wdf mdf odf h, getLast?_filterMap_bind, hlast]
  show ((sort_values wdf).get ⟨j, hj⟩).waist_cm = some 0
  exact h0

/-- Witness for C9: earlier waist 80, last waist 0 — the metric is 0, not the
most recent non-zero measurement 80. -/
theorem waist_zero_present_witness :
    (summarize wdfC9 [] []).latestWaist = some 0 ∧ some (0 : ℚ) ≠ some (80 : ℚ) := by
  have h2 : (sort_values wdfC9).length = 2 := rfl
  refine ⟨?_, by norm_num⟩
  exact waist_zero_present wdfC9 [] [] (by decide) 1 (by rw [h2]; omega) (by rfl)
    (fun k hk hlt => absurd hlt (by rw [h2] at hk; omega))

/-- C10: the stored meal items and notes, and the stored workout notes, equal
the user input with leading and trailing whitespace removed, so no stored
free-text field is whitespace-padded. -/
theorem trimmed_free_text (now d slot items mnotes wtype wn : String) (dur : ℤ)
    (h : pyStrip items ≠ "") :
    submit now (.meal d slot items mnotes)
      = .ok ("meals", [.s now, .s d, .s slot, .s (pyStrip items), .s (pyStrip mnotes)])
    ∧ submit now (.workout d wtype dur wn)
      = .ok ("workouts", [.s now, .s d, .s wtype, .i dur, .s (pyStrip wn)])
    ∧ (∀ (t : String) (c : Char),
        ((pyStrip t).data.head? = some c → c.isWhitespace = false)
        ∧ ((pyStrip t).data.getLast? = some c → c.isWhitespace = false)) := by
  refine ⟨by simp [submit, h], rfl, ?_⟩
  intro t c
  exact ⟨pyStrip_head_not_ws t c, pyStrip_getLast_not_ws t c⟩

/-- Witness for C10: padded items and notes are stored trimmed. -/
theorem trimmed_free_text_witness :
    submit "t0" (.meal "d" "s" "  bread  " " note ")
      = .ok ("meals", [.s "t0", .s "d", .s "s", .s "bread", .s "note"]) := by
  have t := (trimmed_free_text "t0" "d" "s" "  bread  " " note " "w" "" 0 (by decide)).1
  rw [t]
  have h1 : pyStrip "  bread  " = "bread" := by decide
  have h2 : pyStrip " note " = "note" := by decide
  rw [h1, h2]

end Tracker
